import Mathlib

/-!
Verification development for the computer-control MCP server
(`src/universal_assistant/servers/computer_control/control.py`).

The Python module keeps two module-level mutable resources:

* a browser context `CONTEXT` (a Playwright `BrowserContext` holding an
  ordered list of pages), initialized lazily by `initialize_browser`;
* a camera `CAMERA` (an OpenCV `VideoCapture`), initialized lazily by
  `initialize_camera` and released by `cleanup_camera`.

We embed the tool operations as pure state-passing functions.  All
interaction with the outside world (whether `page.goto` raises, whether a
`locator(...).all_text_contents()` call raises, whether `page.close`
raises, whether the camera device opens, what each `CAMERA.read()` call
returns, whether `cv2.imencode` succeeds, whether the file write raises,
and the random uuid token used for the file name) is captured by an
environment record passed to each operation, so the functions themselves
are deterministic and executable.

A tool call in Python either returns a string or lets an exception escape
the tool function; `ToolResult.ok` models the returned string and
`ToolResult.exn` models an uncaught exception propagating past the tool
boundary.
-/

/-- Result of one tool invocation: a returned string, or an exception that
escaped the tool function. -/
inductive ToolResult where
  | ok : String → ToolResult
  | exn : String → ToolResult
  deriving DecidableEq, Repr

/-- One browser page: its creation identity and the URL it was last
navigated to (`none` for a fresh `about:blank` page). -/
structure BPage where
  id : Nat
  url : Option String
  deriving DecidableEq, Repr

/-- The browser-side module state: `context = none` models
`CONTEXT is None` (browser not yet initialized); `some pages` models a
live `BrowserContext` whose `.pages` list is `pages`, ordered by creation
time.  `nextId` is a ghost counter giving fresh page identities. -/
structure BState where
  context : Option (List BPage)
  nextId : Nat
  deriving DecidableEq, Repr

/-- External-world behavior the browser tools depend on:
`gotoErr u = some m` means `page.goto u` raises an exception with message
`m`; `extractErr = some m` means the `h2 a` locator extraction raises;
`results` is the list of result titles when extraction succeeds;
`closeErr i = some m` means `page.close()` on the page with identity `i`
raises. -/
structure Env where
  gotoErr : String → Option String
  extractErr : Option String
  results : List String
  closeErr : Nat → Option String

def SEARCH_URL : String := "https://www.bing.com/search?q="

def MAX_WINDOWS : Nat := 5

/-- `initialize_browser`: if `PLAYWRIGHT is None` (equivalently, the
context is absent — the module sets and clears the three browser globals
together) start the browser and create an empty context; otherwise do
nothing. -/
def initialize_browser (s : BState) : BState :=
  match s.context with
  | none => { s with context := some [] }
  | some _ => s

/-- `open_new_window`: initialize the browser, then if the context already
holds `MAX_WINDOWS` pages raise `BrowserWindowLimitReachedError` — which
the function immediately catches and renders as its message — otherwise
append a fresh page. -/
def open_new_window (s0 : BState) : ToolResult × BState :=
  let s1 := initialize_browser s0
  match s1.context with
  | none => (.ok "Browser context is not initialized.", s1)
  | some pages =>
    if pages.length ≥ MAX_WINDOWS then
      (.ok "Maximum number of browser windows reached.", s1)
    else
      (.ok "Opened a new window.",
        { context := some (pages ++ [⟨s1.nextId, none⟩]), nextId := s1.nextId + 1 })

/-- Number of open pages (`len(CONTEXT.pages)`, with 0 for an absent
context). -/
def pageCount (s : BState) : Nat :=
  (s.context.getD []).length

/-- URL of the current (most recently created) page, if any. -/
def lastUrl (s : BState) : Option String :=
  ((s.context.getD []).getLast?).bind (fun p => p.url)

/-- Navigate the last page of the list to `u` (the effect of
`CONTEXT.pages[-1].goto(u)` on the page list). -/
def setLastUrl (pages : List BPage) (u : String) : List BPage :=
  match pages.getLast? with
  | none => pages
  | some p => pages.dropLast ++ [{ p with url := some u }]

/-- `search_web_on_browser`: initialize the browser; if no pages exist,
call `open_new_window` first; then run `page.goto(SEARCH_URL + query)` on
the last page — this call is OUTSIDE the `try` block of the function, so a raising
`goto` escapes the tool (`ToolResult.exn`) — and finally extract the
result titles inside the `try`, rendering an extraction exception as an
error string. -/
def search_web_on_browser (env : Env) (query : String) (s0 : BState) :
    ToolResult × BState :=
  let s1 := initialize_browser s0
  match s1.context with
  | none => (.ok "Browser context is not initialized.", s1)
  | some pages0 =>
    let s2 := if pages0.length = 0 then (open_new_window s1).2 else s1
    match (s2.context.getD []).getLast? with
    | none => (.exn "IndexError: list index out of range", s2)
    | some _ =>
      let url := SEARCH_URL ++ query
      match env.gotoErr url with
      | some m => (.exn m, s2)
      | none =>
        let s3 : BState :=
          { s2 with context := some (setLastUrl (s2.context.getD []) url) }
        match env.extractErr with
        | some m => (.ok ("Error performing search: " ++ m), s3)
        | none =>
          (.ok ("Searching for " ++ query ++ ". Top results are: "
              ++ toString (env.results.take 5)), s3)

/-- `new_window_and_search`: call `open_new_window` — its returned string
is DISCARDED — then call `search_web_on_browser`. -/
def new_window_and_search (env : Env) (query : String) (s0 : BState) :
    ToolResult × BState :=
  let s1 := (open_new_window s0).2
  search_web_on_browser env query s1

/-- The closing loop of `close_all_windows`: Python iterates over the
snapshot list `CONTEXT.pages`, calling `page.close()` on each; a raising
close escapes the tool, a successful close removes the page from the live
context list. -/
def closeLoop (env : Env) : List BPage → List BPage → Option String × List BPage
  | [], pages => (none, pages)
  | p :: rest, pages =>
    match env.closeErr p.id with
    | some m => (some m, pages)
    | none => closeLoop env rest (pages.filter (fun pg => pg.id ≠ p.id))

/-- `close_all_windows`: initialize the browser, then close every page of
the snapshot; there is no `try` around the closes, so a raising
`page.close()` escapes the tool. -/
def close_all_windows (env : Env) (s0 : BState) : ToolResult × BState :=
  let s1 := initialize_browser s0
  match s1.context with
  | none => (.ok "Browser context is not initialized.", s1)
  | some pages =>
    match closeLoop env pages pages with
    | (some m, remaining) => (.exn m, { s1 with context := some remaining })
    | (none, remaining) =>
      (.ok "Closed all browser windows.", { s1 with context := some remaining })

/-- `get_window_count`: initialize the browser and report the page count. -/
def get_window_count (s0 : BState) : ToolResult × BState :=
  let s1 := initialize_browser s0
  match s1.context with
  | none => (.ok "Browser context is not initialized.", s1)
  | some pages =>
    (.ok ("Currently " ++ toString pages.length ++ " window(s) open."), s1)

/-- Iterated `open_new_window` (state part of a sequence of calls). -/
def openSeq : Nat → BState → BState
  | 0, s => s
  | n + 1, s => openSeq n (open_new_window s).2

/-- The camera handle `CAMERA`: whether `isOpened()` is true, and a ghost
counter of how many `read()` calls have been issued since the device was
(re)created, used to index the per-read outcomes of the environment. -/
structure Cam where
  opened : Bool
  readCount : Nat
  deriving DecidableEq, Repr

/-- The camera-side module state: `camera = none` models `CAMERA is None`. -/
structure CamState where
  camera : Option Cam
  deriving DecidableEq, Repr

/-- External-world behavior the camera tools depend on: whether
`cv2.VideoCapture(0)` yields an opened device, the `ret` flag of the n-th
`read()` since the device was created, whether `cv2.imencode` succeeds,
whether the `try` block of the save stage raises (directory creation or
file write), and the uuid hex token used in the generated file name. -/
structure CamEnv where
  openSucceeds : Bool
  readRet : Nat → Bool
  encodeOk : Bool
  writeErr : Option String
  token : String

/-- The warm-up loop of `initialize_camera`: `n` remaining discard-reads;
each read advances the read counter, and a read whose `ret` is false
returns the warm-up error immediately (the device stays held by the
`CAMERA` global). -/
def warmup (env : CamEnv) : Nat → Cam → String × Cam
  | 0, cam => ("Camera initialized successfully", cam)
  | n + 1, cam =>
    if env.readRet cam.readCount then
      warmup env n { cam with readCount := cam.readCount + 1 }
    else
      ("Error: Could not warm up camera.", { cam with readCount := cam.readCount + 1 })

/-- `initialize_camera`: if `CAMERA` is absent or not opened, create a new
`VideoCapture`; if it failed to open, return the open error (the unopened
handle stays in the global); otherwise run the warm-up of 10 discard-reads. -/
def initialize_camera (env : CamEnv) (s : CamState) : String × CamState :=
  let needInit : Bool :=
    match s.camera with
    | none => true
    | some cam => !cam.opened
  if needInit then
    let cam0 : Cam := ⟨env.openSucceeds, 0⟩
    if !cam0.opened then
      ("Error: Could not open camera.", ⟨some cam0⟩)
    else
      let r := warmup env 10 cam0
      (r.1, ⟨some r.2⟩)
  else
    ("Camera initialized successfully", s)

/-- `cleanup_camera`: release the device if present and clear the global. -/
def cleanup_camera (s : CamState) : CamState :=
  match s.camera with
  | none => s
  | some _ => ⟨none⟩

/-- `close_camera` tool: always calls `cleanup_camera` and reports
success. -/
def close_camera (s : CamState) : ToolResult × CamState :=
  (.ok "Camera closed.", cleanup_camera s)

/-- The body of `capture_camera` after the `initialize_camera` call (whose
returned string the Python code discards): check availability, do 10
discard-reads whose `ret` flags are ignored plus one retained read, fail
if the `ret` flag of the retained read is false, then inside the `try` block encode
(an encode returning `success=False` returns an error string WITHOUT
releasing the camera) and write the file; the `except` path and the
success path both call `cleanup_camera`.  The third component records the
file written, if any. -/
def captureCore (env : CamEnv) (s1 : CamState) :
    ToolResult × CamState × Option String :=
  match s1.camera with
  | none => (.ok "Error: Camera not available.", s1, none)
  | some cam =>
    if !cam.opened then
      (.ok "Error: Camera not available.", s1, none)
    else
      let ret := env.readRet (cam.readCount + 10)
      let s2 : CamState := ⟨some ⟨cam.opened, cam.readCount + 11⟩⟩
      if !ret then
        (.ok "Error: Failed to capture image.", s2, none)
      else
        let filename := "camera_" ++ env.token ++ ".png"
        if !env.encodeOk then
          (.ok "Error: Could not encode image.", s2, none)
        else
          match env.writeErr with
          | some m => (.ok ("Error capturing camera image: " ++ m), cleanup_camera s2, none)
          | none =>
            (.ok ("Camera image captured!\n\n![Camera Image](/static/images/"
                ++ filename ++ ")"),
              cleanup_camera s2, some filename)

/-- `capture_camera` tool: run `initialize_camera` (result string
discarded), then the capture body. -/
def capture_camera (env : CamEnv) (s0 : CamState) :
    ToolResult × CamState × Option String :=
  captureCore env (initialize_camera env s0).2

/-! Concrete states and environments used to instantiate the theorems. -/

/-- Five open pages: a pool at capacity. -/
def fullPages : List BPage :=
  [⟨0, none⟩, ⟨1, none⟩, ⟨2, none⟩, ⟨3, none⟩, ⟨4, none⟩]

/-- A browser state whose pool is at capacity. -/
def fullPool : BState := ⟨some fullPages, 5⟩

/-- A browser state with one open page. -/
def onePage : BState := ⟨some [⟨0, none⟩], 1⟩

/-- A browser state with two open pages. -/
def twoPool : BState := ⟨some [⟨0, none⟩, ⟨1, none⟩], 2⟩

/-- An environment in which every external browser interaction succeeds. -/
def okEnv : Env := ⟨fun _ => none, none, ["r1", "r2"], fun _ => none⟩

/-- An environment in which `page.goto` raises. -/
def gotoFailEnv : Env :=
  ⟨fun _ => some "net::ERR_CONNECTION_REFUSED", none, [], fun _ => none⟩

/-- An environment in which navigation succeeds but the locator extraction
raises. -/
def extractFailEnv : Env :=
  ⟨fun _ => none, some "Timeout 30000ms exceeded", [], fun _ => none⟩

/-- An environment in which closing the page with identity 0 raises. -/
def closeFailEnv : Env :=
  ⟨fun _ => none, none, [],
    fun i => if i = 0 then some "Target page has been closed" else none⟩

/-- A camera environment in which everything succeeds. -/
def goodCamEnv : CamEnv := ⟨true, fun _ => true, true, none, "0123abcd"⟩

/-- A camera environment whose device opens but whose every read fails. -/
def deadReadCamEnv : CamEnv := ⟨true, fun _ => false, true, none, "0123abcd"⟩

/-- A camera environment whose device does not open. -/
def noCamEnv : CamEnv := ⟨false, fun _ => false, true, none, "0123abcd"⟩

/-! Helper lemmas. -/

/-- One `open_new_window` call preserves the capacity bound. -/
theorem open_new_window_pageCount_le (s : BState) (h : pageCount s ≤ MAX_WINDOWS) :
    pageCount (open_new_window s).2 ≤ MAX_WINDOWS := by
  rcases s with ⟨ctx, k⟩
  cases ctx with
  | none => simp [open_new_window, initialize_browser, pageCount, MAX_WINDOWS]
  | some pages =>
    by_cases h5 : pages.length ≥ MAX_WINDOWS
    · simpa [open_new_window, initialize_browser, pageCount, h5] using h
    · simp only [open_new_window, initialize_browser, pageCount, MAX_WINDOWS] at h5 ⊢
      simp [h5, List.length_append]
      omega

/-- Any sequence of `open_new_window` calls preserves the capacity bound. -/
theorem openSeq_pageCount_le (n : Nat) :
    ∀ s : BState, pageCount s ≤ MAX_WINDOWS →
      pageCount (openSeq n s) ≤ MAX_WINDOWS := by
  induction n with
  | zero => intro s h; simpa [openSeq] using h
  | succ n ih =>
    intro s h
    simpa [openSeq] using ih _ (open_new_window_pageCount_le s h)

/-- C1: for every sequence of `open_new_window` calls starting from any
pool state (which, by the pool invariant, holds at most `MAX_WINDOWS`
pages), the open-page count never exceeds `MAX_WINDOWS` = 5; and a call
made when the pool already holds 5 open pages returns the failure message
"Maximum number of browser windows reached.", creates no page, and leaves
the state — hence the pool, at exactly 5 — unchanged. -/
theorem c1_window_capacity_invariant (s : BState)
    (h : pageCount s ≤ MAX_WINDOWS) (n : Nat) :
    pageCount (openSeq n s) ≤ MAX_WINDOWS ∧
    (pageCount s = MAX_WINDOWS →
      open_new_window s = (.ok "Maximum number of browser windows reached.", s)) := by
  constructor
  · exact openSeq_pageCount_le n s h
  · intro h5
    rcases s with ⟨ctx, k⟩
    cases ctx with
    | none => simp [pageCount, MAX_WINDOWS] at h5
    | some pages =>
      have hl : pages.length = MAX_WINDOWS := by simpa [pageCount] using h5
      simp [open_new_window, initialize_browser, hl]

/-- Witness for C1 at a concrete full pool and a run of 7 further calls. -/
theorem c1_window_capacity_invariant_witness :
    pageCount (openSeq 7 fullPool) ≤ MAX_WINDOWS ∧
    (pageCount fullPool = MAX_WINDOWS →
      open_new_window fullPool =
        (.ok "Maximum number of browser windows reached.", fullPool)) :=
  c1_window_capacity_invariant fullPool (by decide) 7

/-- C7: `close_camera` always succeeds with "Camera closed.", leaves the
camera state Closed (handle released), and calling it twice in a row — or
when the camera was never opened — gives the same successful outcome. -/
theorem c7_close_camera_idempotent (s : CamState) :
    (close_camera s).1 = .ok "Camera closed." ∧
    (close_camera s).2.camera = none ∧
    close_camera (close_camera s).2 = close_camera s ∧
    close_camera ⟨none⟩ = (.ok "Camera closed.", ⟨none⟩) := by
  rcases s with ⟨cam⟩
  cases cam <;> simp [close_camera, cleanup_camera]

/-- If the capture body records a written file, the run took the success
path: the camera slot is released, the file name is the fixed prefix
"camera_" followed by the uuid token, and the returned string embeds the
image path. -/
theorem captureCore_success_state (env : CamEnv) (s1 : CamState) (fn : String)
    (h : (captureCore env s1).2.2 = some fn) :
    (captureCore env s1).2.1 = ⟨none⟩ ∧
    fn = "camera_" ++ env.token ++ ".png" ∧
    (captureCore env s1).1 =
      .ok ("Camera image captured!\n\n![Camera Image](/static/images/" ++ fn ++ ")") := by
  rcases s1 with ⟨cam?⟩
  cases cam? with
  | none => simp [captureCore] at h
  | some cam =>
    rcases cam with ⟨op, rc⟩
    cases op with
    | false => simp [captureCore] at h
    | true =>
      by_cases hr : env.readRet (rc + 10)
      · by_cases he : env.encodeOk
        · cases hw : env.writeErr with
          | some m => simp [captureCore, hr, he, hw] at h
          | none =>
            have hfn : ("camera_" ++ env.token ++ ".png" : String) = fn := by
              simpa [captureCore, hr, he, hw] using h
            subst hfn
            simp [captureCore, hr, he, hw, cleanup_camera]
        · simp [captureCore, hr, he] at h
      · simp [captureCore, hr] at h

/-- C5: after every successful `capture_camera` call (one that wrote a
file), the camera device is released — `CAMERA` is reset to absent, so
the next capture re-initializes — and the success string embeds an image
path whose file name is the fixed prefix "camera_" followed by the
uuid4-hex token (the collision-resistant random part, supplied here by
the environment). -/
theorem c5_capture_success_closes_device (env : CamEnv) (s : CamState) (fn : String)
    (h : (capture_camera env s).2.2 = some fn) :
    (capture_camera env s).2.1 = ⟨none⟩ ∧
    fn = "camera_" ++ env.token ++ ".png" ∧
    (capture_camera env s).1 =
      .ok ("Camera image captured!\n\n![Camera Image](/static/images/" ++ fn ++ ")") :=
  captureCore_success_state env (initialize_camera env s).2 fn h

/-- Witness for C5: an all-good camera environment starting from the
never-opened state. -/
theorem c5_capture_success_witness :
    (capture_camera goodCamEnv ⟨none⟩).2.1 = ⟨none⟩ ∧
    "camera_0123abcd.png" = "camera_" ++ goodCamEnv.token ++ ".png" ∧
    (capture_camera goodCamEnv ⟨none⟩).1 =
      .ok ("Camera image captured!\n\n![Camera Image](/static/images/"
          ++ "camera_0123abcd.png" ++ ")") :=
  c5_capture_success_closes_device goodCamEnv ⟨none⟩ "camera_0123abcd.png" (by decide)

/-- C10: failure effects of `capture_camera` on an already-open camera.
A failing retained read or a failing encode returns an error string but
does NOT release the camera — the device stays in the Open position with
its read counter advanced by the 11 reads — while an exception in the
write stage and the success path both release the device. -/
theorem c10_capture_failure_keeps_camera_open (env : CamEnv) (c : Nat) (m : String) :
    (env.readRet (c + 10) = false →
      capture_camera env ⟨some ⟨true, c⟩⟩ =
        (.ok "Error: Failed to capture image.", ⟨some ⟨true, c + 11⟩⟩, none)) ∧
    (env.readRet (c + 10) = true → env.encodeOk = false →
      capture_camera env ⟨some ⟨true, c⟩⟩ =
        (.ok "Error: Could not encode image.", ⟨some ⟨true, c + 11⟩⟩, none)) ∧
    (env.readRet (c + 10) = true → env.encodeOk = true → env.writeErr = some m →
      capture_camera env ⟨some ⟨true, c⟩⟩ =
        (.ok ("Error capturing camera image: " ++ m), ⟨none⟩, none)) ∧
    (env.readRet (c + 10) = true → env.encodeOk = true → env.writeErr = none →
      capture_camera env ⟨some ⟨true, c⟩⟩ =
        (.ok ("Camera image captured!\n\n![Camera Image](/static/images/"
            ++ ("camera_" ++ env.token ++ ".png") ++ ")"),
          ⟨none⟩, some ("camera_" ++ env.token ++ ".png"))) := by
  refine ⟨fun h1 => ?_, fun h1 h2 => ?_, fun h1 h2 h3 => ?_, fun h1 h2 h3 => ?_⟩
  · simp [capture_camera, initialize_camera, captureCore, cleanup_camera, h1]
  · simp [capture_camera, initialize_camera, captureCore, cleanup_camera, h1, h2]
  · simp [capture_camera, initialize_camera, captureCore, cleanup_camera, h1, h2, h3]
  · simp [capture_camera, initialize_camera, captureCore, cleanup_camera, h1, h2, h3]

/-- Witness for C10: a camera whose reads all fail, and one whose write
stage raises. -/
theorem c10_capture_failure_witness :
    (deadReadCamEnv.readRet (0 + 10) = false →
      capture_camera deadReadCamEnv ⟨some ⟨true, 0⟩⟩ =
        (.ok "Error: Failed to capture image.", ⟨some ⟨true, 0 + 11⟩⟩, none)) ∧
    (deadReadCamEnv.readRet (0 + 10) = true → deadReadCamEnv.encodeOk = false →
      capture_camera deadReadCamEnv ⟨some ⟨true, 0⟩⟩ =
        (.ok "Error: Could not encode image.", ⟨some ⟨true, 0 + 11⟩⟩, none)) ∧
    (deadReadCamEnv.readRet (0 + 10) = true → deadReadCamEnv.encodeOk = true →
      deadReadCamEnv.writeErr = some "disk full" →
      capture_camera deadReadCamEnv ⟨some ⟨true, 0⟩⟩ =
        (.ok ("Error capturing camera image: " ++ "disk full"), ⟨none⟩, none)) ∧
    (deadReadCamEnv.readRet (0 + 10) = true → deadReadCamEnv.encodeOk = true →
      deadReadCamEnv.writeErr = none →
      capture_camera deadReadCamEnv ⟨some ⟨true, 0⟩⟩ =
        (.ok ("Camera image captured!\n\n![Camera Image](/static/images/"
            ++ ("camera_" ++ deadReadCamEnv.token ++ ".png") ++ ")"),
          ⟨none⟩, some ("camera_" ++ deadReadCamEnv.token ++ ".png"))) :=
  c10_capture_failure_keeps_camera_open deadReadCamEnv 0 "disk full"

/-- If all `n` warm-up reads report success, the warm-up succeeds and
advances the read counter by exactly `n`. -/
theorem warmup_ok (env : CamEnv) (n : Nat) :
    ∀ c : Nat, (∀ i, i < n → env.readRet (c + i) = true) →
      warmup env n ⟨true, c⟩ = ("Camera initialized successfully", ⟨true, c + n⟩) := by
  induction n with
  | zero => intro c _; simp [warmup]
  | succ n ih =>
    intro c h
    have h0 : env.readRet c = true := by simpa using h 0 (by omega)
    have hrec := ih (c + 1) (fun i hi => by
      have hx := h (i + 1) (by omega)
      simpa [show c + (i + 1) = c + 1 + i by omega] using hx)
    simp only [warmup, h0, if_true]
    rw [hrec]
    simp only [Prod.mk.injEq, Cam.mk.injEq, true_and]
    omega

/-- If the first failing warm-up read is the one at offset `j < n`, the
warm-up aborts with the warm-up error, leaving the device open with the
read counter at `j + 1`. -/
theorem warmup_fail (env : CamEnv) (n : Nat) :
    ∀ j c : Nat, j < n → env.readRet (c + j) = false →
      (∀ i, i < j → env.readRet (c + i) = true) →
      warmup env n ⟨true, c⟩ =
        ("Error: Could not warm up camera.", ⟨true, c + j + 1⟩) := by
  induction n with
  | zero => intro j c hj _ _; omega
  | succ n ih =>
    intro j c hj hfail hpre
    cases j with
    | zero =>
      have h0 : env.readRet c = false := by simpa using hfail
      simp [warmup, h0]
    | succ j =>
      have h0 : env.readRet c = true := by simpa using hpre 0 (by omega)
      have hrec := ih j (c + 1) (by omega)
        (by simpa [show c + 1 + j = c + (j + 1) by omega] using hfail)
        (fun i hi => by
          have hx := hpre (i + 1) (by omega)
          simpa [show c + (i + 1) = c + 1 + i by omega] using hx)
      simp only [warmup, h0, if_true]
      rw [hrec]
      simp only [Prod.mk.injEq, Cam.mk.injEq, true_and]
      omega

/-- C6 counterexample: a device that opens but whose reads all fail.  The
failing first discard-read aborts `initialize_camera` with the warm-up
error but leaves the device held and OPEN (`opened = true`), and the
subsequent `capture_camera` — which discards the init message — proceeds
to attempt a capture anyway, failing with the capture-failure message
(not a device-unavailable one) and still leaving the device Open.  This
refutes "a capture_camera call in that situation fails with a
device-unavailable message ... and leaves no partial state in the Open
position". -/
theorem c6_counterexample :
    initialize_camera deadReadCamEnv ⟨none⟩ =
      ("Error: Could not warm up camera.", ⟨some ⟨true, 1⟩⟩) ∧
    capture_camera deadReadCamEnv ⟨none⟩ =
      (.ok "Error: Failed to capture image.", ⟨some ⟨true, 12⟩⟩, none) := by
  exact ⟨rfl, rfl⟩

/-- C6 as amended: initialization performs a fixed warm-up of exactly 10
discard-reads; with an ABSENT device, `capture_camera` fails with the
device-unavailable message, writes no file and leaves no state in the
Open position; a failing discard-read aborts initialization with the
warm-up error message but leaves the device held and Open, and a
subsequent capture on an Open device proceeds (failing with the
capture-failure message, still Open, when the retained read fails). -/
theorem c6_camera_init_amended (env : CamEnv) (j c : Nat) :
    (env.openSucceeds = false →
      capture_camera env ⟨none⟩ =
        (.ok "Error: Camera not available.", ⟨some ⟨false, 0⟩⟩, none)) ∧
    (env.openSucceeds = true → (∀ i, i < 10 → env.readRet i = true) →
      initialize_camera env ⟨none⟩ =
        ("Camera initialized successfully", ⟨some ⟨true, 10⟩⟩)) ∧
    (env.openSucceeds = true → j < 10 → env.readRet j = false →
      (∀ i, i < j → env.readRet i = true) →
      initialize_camera env ⟨none⟩ =
        ("Error: Could not warm up camera.", ⟨some ⟨true, j + 1⟩⟩)) ∧
    (env.readRet (c + 10) = false →
      capture_camera env ⟨some ⟨true, c⟩⟩ =
        (.ok "Error: Failed to capture image.", ⟨some ⟨true, c + 11⟩⟩, none)) := by
  refine ⟨fun hop => ?_, fun hop hreads => ?_, fun hop hj hfail hpre => ?_,
    fun hread => ?_⟩
  · simp [capture_camera, initialize_camera, captureCore, hop]
  · have hw := warmup_ok env 10 0 (fun i hi => by simpa using hreads i hi)
    simp [initialize_camera, hop, hw]
  · have hw := warmup_fail env 10 j 0 hj (by simpa using hfail)
      (fun i hi => by simpa using hpre i hi)
    simp [initialize_camera, hop, hw]
  · simp [capture_camera, initialize_camera, captureCore, hread]

/-- Witness for the amended C6: the absent-device clause and the
capture-proceeds clause are exercised by a device that never opens and a
dead-read device respectively. -/
theorem c6_camera_init_amended_witness :
    capture_camera noCamEnv ⟨none⟩ =
      (.ok "Error: Camera not available.", ⟨some ⟨false, 0⟩⟩, none) ∧
    capture_camera deadReadCamEnv ⟨some ⟨true, 2⟩⟩ =
      (.ok "Error: Failed to capture image.", ⟨some ⟨true, 2 + 11⟩⟩, none) :=
  ⟨(c6_camera_init_amended noCamEnv 0 0).1 (by decide),
    (c6_camera_init_amended deadReadCamEnv 0 2).2.2.2 (by decide)⟩

/-- Navigating the last page does not change the number of pages. -/
theorem setLastUrl_length (pages : List BPage) (u : String) :
    (setLastUrl pages u).length = pages.length := by
  cases hp : pages.getLast? with
  | none => simp [setLastUrl, hp]
  | some p =>
    have hne : pages ≠ [] := by
      intro h
      subst h
      simp at hp
    have hpos : 0 < pages.length := List.length_pos.mpr hne
    simp [setLastUrl, hp, List.length_dropLast]
    omega

/-- On a state with a nonempty page list, `search_web_on_browser` leaves
the number of open pages unchanged, whatever the environment does. -/
theorem search_pageCount_nonempty (env : Env) (q : String)
    (pages : List BPage) (k : Nat) (hne : pages ≠ []) :
    pageCount (search_web_on_browser env q ⟨some pages, k⟩).2 = pages.length := by
  obtain ⟨p, hp⟩ : ∃ p, pages.getLast? = some p := by
    cases hp : pages.getLast? with
    | none => exact absurd (List.getLast?_eq_none_iff.mp hp) hne
    | some p => exact ⟨p, rfl⟩
  have hlen : pages.length ≠ 0 := fun h => hne (List.length_eq_zero.mp h)
  cases hg : env.gotoErr (SEARCH_URL ++ q) with
  | some m =>
    simp [search_web_on_browser, initialize_browser, pageCount, hlen, hp, hg]
  | none =>
    cases he : env.extractErr with
    | some m =>
      simp [search_web_on_browser, initialize_browser, pageCount, hlen, hp, hg, he,
        setLastUrl_length]
    | none =>
      simp [search_web_on_browser, initialize_browser, pageCount, hlen, hp, hg, he,
        setLastUrl_length]

/-- C2 counterexample: with one page open and a navigation (`page.goto`)
failure, `search_web_on_browser` does NOT return a failure string: the
`goto` call sits outside the `try` block, so the exception escapes the
tool boundary (`ToolResult.exn`).  The page does remain open. -/
theorem c2_counterexample :
    (search_web_on_browser gotoFailEnv "cats" onePage).1 =
      .exn "net::ERR_CONNECTION_REFUSED" ∧
    pageCount (search_web_on_browser gotoFailEnv "cats" onePage).2 = 1 := by
  exact ⟨rfl, rfl⟩

/-- C2 as amended: a RESULT-EXTRACTION failure in `search_web_on_browser`
is caught and returned as a failure string naming the cause, and the
current page remains open (page count unchanged); a NAVIGATION failure
instead propagates as an exception past the tool boundary (the page still
remaining open), as the counterexample shows. -/
theorem c2_extraction_failure_returns_string (env : Env) (q m : String)
    (pages : List BPage) (k : Nat) (hne : pages ≠ [])
    (hgoto : env.gotoErr (SEARCH_URL ++ q) = none)
    (hext : env.extractErr = some m) :
    (search_web_on_browser env q ⟨some pages, k⟩).1 =
      .ok ("Error performing search: " ++ m) ∧
    pageCount (search_web_on_browser env q ⟨some pages, k⟩).2 = pages.length := by
  refine ⟨?_, search_pageCount_nonempty env q pages k hne⟩
  obtain ⟨p, hp⟩ : ∃ p, pages.getLast? = some p := by
    cases hp : pages.getLast? with
    | none => exact absurd (List.getLast?_eq_none_iff.mp hp) hne
    | some p => exact ⟨p, rfl⟩
  have hlen : pages.length ≠ 0 := fun h => hne (List.length_eq_zero.mp h)
  simp [search_web_on_browser, initialize_browser, hlen, hp, hgoto, hext]

/-- Witness for the amended C2: a concrete one-page state whose extraction
raises a timeout. -/
theorem c2_extraction_failure_witness :
    (search_web_on_browser extractFailEnv "cats" ⟨some [⟨0, none⟩], 1⟩).1 =
      .ok ("Error performing search: " ++ "Timeout 30000ms exceeded") ∧
    pageCount (search_web_on_browser extractFailEnv "cats" ⟨some [⟨0, none⟩], 1⟩).2 =
      List.length [(⟨0, none⟩ : BPage)] :=
  c2_extraction_failure_returns_string extractFailEnv "cats" "Timeout 30000ms exceeded"
    [⟨0, none⟩] 1 (List.cons_ne_nil _ _) rfl rfl

/-- C3 counterexample: with the pool at capacity and an all-success
environment, `new_window_and_search` does NOT fail with the capacity
message: the return value of the inner `open_new_window` is discarded,
and the search is performed on the current (last) page — its URL becomes
the templated search URL — refuting "does not attempt the search (no
navigation of any page occurs)". -/
theorem c3_counterexample :
    (new_window_and_search okEnv "cats" fullPool).1 ≠
      .ok "Maximum number of browser windows reached." ∧
    (new_window_and_search okEnv "cats" fullPool).1 =
      .ok "Searching for cats. Top results are: [r1, r2]" ∧
    lastUrl (new_window_and_search okEnv "cats" fullPool).2 =
      some (SEARCH_URL ++ "cats") := by
  exact ⟨by decide, rfl, rfl⟩

/-- C3 as amended: when the pool already holds `MAX_WINDOWS` open pages,
`new_window_and_search` opens no new window — the whole call is the same
as a bare `search_web_on_browser` on the unchanged state, so the pool
stays at exactly `MAX_WINDOWS` — but the capacity failure of the inner
`open_new_window` is discarded and the search IS attempted on the current
page. -/
theorem c3_full_pool_still_searches (env : Env) (q : String)
    (pages : List BPage) (k : Nat) (h5 : pages.length = MAX_WINDOWS) :
    new_window_and_search env q ⟨some pages, k⟩ =
      search_web_on_browser env q ⟨some pages, k⟩ ∧
    pageCount (new_window_and_search env q ⟨some pages, k⟩).2 = MAX_WINDOWS := by
  have hopen : (open_new_window ⟨some pages, k⟩).2 = ⟨some pages, k⟩ := by
    simp [open_new_window, initialize_browser, h5]
  have heq : new_window_and_search env q ⟨some pages, k⟩ =
      search_web_on_browser env q ⟨some pages, k⟩ := by
    simp [new_window_and_search, hopen]
  refine ⟨heq, ?_⟩
  rw [heq]
  have hne : pages ≠ [] := by
    intro h
    rw [h] at h5
    simp [MAX_WINDOWS] at h5
  rw [search_pageCount_nonempty env q pages k hne, h5]

/-- Witness for the amended C3 at the concrete full pool. -/
theorem c3_full_pool_witness :
    new_window_and_search okEnv "cats" ⟨some fullPages, 5⟩ =
      search_web_on_browser okEnv "cats" ⟨some fullPages, 5⟩ ∧
    pageCount (new_window_and_search okEnv "cats" ⟨some fullPages, 5⟩).2 =
      MAX_WINDOWS :=
  c3_full_pool_still_searches okEnv "cats" fullPages 5 (by decide)

/-- C8: on any state with zero open pages (browser not yet started, or
started with an empty pool), `search_web_on_browser` is identical — same
returned result, same final state — to `new_window_and_search`: both
implicitly open exactly one window (capacity always allows this, since
0 < MAX_WINDOWS, so the capacity-failure case of `open_new_window` is
unreachable here) and end with exactly one open page; when navigation
succeeds, that page has been navigated to the templated search URL. -/
theorem c8_search_equals_open_and_search (env : Env) (q : String) (s : BState)
    (h : pageCount s = 0) :
    search_web_on_browser env q s = new_window_and_search env q s ∧
    pageCount (search_web_on_browser env q s).2 = 1 ∧
    (env.gotoErr (SEARCH_URL ++ q) = none →
      lastUrl (search_web_on_browser env q s).2 = some (SEARCH_URL ++ q)) := by
  rcases s with ⟨ctx, k⟩
  cases ctx with
  | none =>
    refine ⟨rfl, ?_, fun hg => ?_⟩
    · cases hg : env.gotoErr (SEARCH_URL ++ q) with
      | some m =>
        simp [search_web_on_browser, initialize_browser, open_new_window,
          MAX_WINDOWS, pageCount, hg]
      | none =>
        cases he : env.extractErr <;>
          simp [search_web_on_browser, initialize_browser, open_new_window,
            MAX_WINDOWS, pageCount, setLastUrl, hg, he]
    · cases he : env.extractErr <;>
        simp [search_web_on_browser, initialize_browser, open_new_window,
          MAX_WINDOWS, lastUrl, setLastUrl, hg, he]
  | some pages =>
    have hnil : pages = [] := List.length_eq_zero.mp (by simpa [pageCount] using h)
    subst hnil
    refine ⟨rfl, ?_, fun hg => ?_⟩
    · cases hg : env.gotoErr (SEARCH_URL ++ q) with
      | some m =>
        simp [search_web_on_browser, initialize_browser, open_new_window,
          MAX_WINDOWS, pageCount, hg]
      | none =>
        cases he : env.extractErr <;>
          simp [search_web_on_browser, initialize_browser, open_new_window,
            MAX_WINDOWS, pageCount, setLastUrl, hg, he]
    · cases he : env.extractErr <;>
        simp [search_web_on_browser, initialize_browser, open_new_window,
          MAX_WINDOWS, lastUrl, setLastUrl, hg, he]

/-- Witness for C8: an uninitialized browser state under the all-success
environment. -/
theorem c8_search_equals_open_and_search_witness :
    search_web_on_browser okEnv "cats" ⟨none, 0⟩ =
      new_window_and_search okEnv "cats" ⟨none, 0⟩ ∧
    pageCount (search_web_on_browser okEnv "cats" ⟨none, 0⟩).2 = 1 ∧
    (okEnv.gotoErr (SEARCH_URL ++ "cats") = none →
      lastUrl (search_web_on_browser okEnv "cats" ⟨none, 0⟩).2 =
        some (SEARCH_URL ++ "cats")) :=
  c8_search_equals_open_and_search okEnv "cats" ⟨none, 0⟩ rfl

/-- If every close in the to-do snapshot succeeds and every live page is
covered by the snapshot, the closing loop succeeds and empties the live
list. -/
theorem closeLoop_all_ok (env : Env) (todo : List BPage) :
    ∀ pages : List BPage, (∀ p ∈ todo, env.closeErr p.id = none) →
      (∀ pg ∈ pages, ∃ t ∈ todo, pg.id = t.id) →
      closeLoop env todo pages = (none, []) := by
  induction todo with
  | nil =>
    intro pages _ hcov
    have : pages = [] := by
      cases pages with
      | nil => rfl
      | cons a l =>
        obtain ⟨t, ht, _⟩ := hcov a (List.mem_cons_self a l)
        exact absurd ht (List.not_mem_nil t)
    subst this
    simp [closeLoop]
  | cons t rest ih =>
    intro pages hok hcov
    have ht : env.closeErr t.id = none := hok t (List.mem_cons_self t rest)
    have hrec := ih (pages.filter (fun pg => pg.id ≠ t.id))
      (fun p hp => hok p (List.mem_cons_of_mem t hp))
      (fun pg hpg => by
        have hmem : pg ∈ pages ∧ pg.id ≠ t.id := by
          have := List.mem_filter.mp hpg
          exact ⟨this.1, by simpa using this.2⟩
        obtain ⟨u, hu, hid⟩ := hcov pg hmem.1
        rcases List.mem_cons.mp hu with h | h
        · exact absurd (h ▸ hid) hmem.2
        · exact ⟨u, h, hid⟩)
    simp only [ne_eq, decide_not] at hrec
    simp [closeLoop, ht, hrec]

/-- C4 counterexample: a two-page pool where closing the first page
raises.  `close_all_windows` has no `try` around the closes, so the
overall operation fails (the exception escapes the tool) — refuting "the
overall operation never fails even if closing an individual page fails" —
and the pool is NOT emptied. -/
theorem c4_counterexample :
    (close_all_windows closeFailEnv twoPool).1 =
      .exn "Target page has been closed" ∧
    pageCount (close_all_windows closeFailEnv twoPool).2 = 2 := by
  exact ⟨rfl, rfl⟩

/-- C4 as amended: provided every individual `page.close()` succeeds,
`close_all_windows` closes every open page, empties the pool — a
subsequent `get_window_count` reports 0 — and returns the success string,
for every prior pool state; a failing individual close instead propagates
as an exception, as the counterexample shows. -/
theorem c4_close_all_empties_pool (env : Env) (s : BState)
    (hok : ∀ p ∈ (initialize_browser s).context.getD [], env.closeErr p.id = none) :
    close_all_windows env s =
      (.ok "Closed all browser windows.", ⟨some [], s.nextId⟩) ∧
    pageCount (close_all_windows env s).2 = 0 ∧
    (get_window_count (close_all_windows env s).2).1 =
      .ok "Currently 0 window(s) open." := by
  rcases s with ⟨ctx, k⟩
  cases ctx with
  | none =>
    have hmain : close_all_windows env ⟨none, k⟩ =
        (.ok "Closed all browser windows.", ⟨some [], k⟩) := by
      simp [close_all_windows, initialize_browser, closeLoop]
    exact ⟨hmain, by rw [hmain]; rfl, by rw [hmain]; rfl⟩
  | some pages =>
    have hok2 : ∀ p ∈ pages, env.closeErr p.id = none := by
      simpa [initialize_browser] using hok
    have hloop := closeLoop_all_ok env pages pages hok2
      (fun pg hpg => ⟨pg, hpg, rfl⟩)
    have hmain : close_all_windows env ⟨some pages, k⟩ =
        (.ok "Closed all browser windows.", ⟨some [], k⟩) := by
      simp [close_all_windows, initialize_browser, hloop]
    exact ⟨hmain, by rw [hmain]; rfl, by rw [hmain]; rfl⟩

/-- Witness for the amended C4 at a concrete two-page pool under the
all-success environment. -/
theorem c4_close_all_empties_pool_witness :
    close_all_windows okEnv twoPool =
      (.ok "Closed all browser windows.", ⟨some [], twoPool.nextId⟩) ∧
    pageCount (close_all_windows okEnv twoPool).2 = 0 ∧
    (get_window_count (close_all_windows okEnv twoPool).2).1 =
      .ok "Currently 0 window(s) open." :=
  c4_close_all_empties_pool okEnv twoPool (by decide)
